import Mathlib

/-!
Verification development for the `iso7816_tx` crate: a shallow embedding of
the ISO/IEC 7816-3 T=1 transmission protocol engine of `src/proto.rs` and of
the outer API layer of `src/lib.rs`, together with theorems about the
behaviours described in the specification.

Bytes are modelled as `Nat` values below 256 (all byte operations used by the
code — XOR, AND, OR — preserve this bound).  The fixed 260-byte scratch
buffer, the 32-byte ATR buffer and the caller-supplied APDU buffers are
modelled as `List Nat`.  The transport read callback is modelled as a cursor
over a finite byte stream (a `List Nat`): a read of `k` bytes yields
`min k remaining` bytes, exactly like the repository's test harness; the
write callback always accepts the full block and is modelled by a log of the
written blocks.  Rust panics (`copy_from_slice` length mismatches, invalid
slice ranges, failing `try_into().unwrap()`) are modelled by `Option`/a
dedicated `panic` outcome.  The main protocol loop is modelled with explicit
fuel; running out of fuel is a distinguished outcome, so any theorem stating
a `done` result proves genuine termination of the loop.
-/

set_option maxRecDepth 40000
set_option maxHeartbeats 1600000

namespace Iso7816

/-- Write the elements of `src` into `l` starting at index `start`; the model
of a byte-wise copy into a fixed-size buffer. -/
def writeRange : List Nat → Nat → List Nat → List Nat
  | l, _, [] => l
  | l, i, a :: rest => writeRange (l.set i a) (i + 1) rest

/-- Model of Rust `dst[start..stop].copy_from_slice(src)`.  The result is
`none` (a panic) when the range is invalid for `dst` or when the source
length differs from the range length, exactly the panicking conditions of
slicing plus `copy_from_slice`. -/
def copyFromSlice (dst : List Nat) (start stop : Nat) (src : List Nat) :
    Option (List Nat) :=
  if start ≤ stop ∧ stop ≤ dst.length ∧ src.length = stop - start then
    some (writeRange dst start src)
  else
    none

/-- Two's-complement bitwise AND of an `i32` value `y` (which in `parse_atr`
is always in the `i32` range) with a small nonnegative mask. -/
def i32Land (y : Int) (m : Nat) : Int :=
  if y < 0 then ((((2 : Int) ^ 32 + y).toNat) &&& m : Nat) else ((y.toNat &&& m : Nat))

/-- Errors of `proto::Error<E>` (src/proto.rs lines 805-842).  Transport
errors that merely wrap the opaque interface error `E` carry no payload here
because the modelled harness transport never fails. -/
inductive T1Err where
  | CApduLen (n : Nat)
  | NoAtr
  | NoRespIBlock
  | ReadNad
  | ReadHdr
  | ReadData
  | WriteCb
  | ReadLen (n : Nat)
  | ReadNadVal (b : Nat)
  | ReadLen255
  | BadCrc (a b : Nat)
  | Timeout (t : Nat)
  | WriteLen (a b : Nat)
  | ReadNadLen (a b : Nat)
  | ReadHdrLen (a b : Nat)
  | ReadDataLen (a b : Nat)
  | RecvLen (a b : Nat)
  | Aborted
  | BadMsgIfs
  | BadMsgRst
  | NeverReq
  | RbTimeout
  | PrevBlkCrc
  | RbHalt
  | RbResync
  | RbNotSupported
  | ReqResync
  | ErrorBadMsg1 (b : Nat)
  | ErrorBadMsg2 (b : Nat)
  | ErrorBadMsg3 (b : Nat)
  | ErrorBadMsg4 (b : Nat)
  | NoRoundsLeft
  | StateBadCrc
  | Ebade
  | RecvMsgSize (a b : Nat)
deriving DecidableEq, Repr

/-- Block kinds (src/proto.rs lines 32-37). -/
inductive Block where
  | I
  | R
  | S
deriving DecidableEq, Repr

/-- The state of `T1Proto` (src/proto.rs lines 117-136).  Field names mirror
the source: `state_request`/`state_timeout` are the flags `state.request` /
`state.timeout`; `request` is the pending S-request code; `recv_size` is the
capacity field `recv.size` while `recv_size_acc` is the cumulative counter
`T1Proto::recv_size`; `n` is the scratch length.  The `chk_algo` field is
omitted because `ChkAlgo` has the single variant `Lrc`; the write-only `err`
field and the `sleep_cb` function pointer are omitted as they never influence
behaviour. -/
structure T1State where
  halt : Bool
  state_request : Bool
  reqresp : Bool
  badcrc : Bool
  state_timeout : Bool
  aborted : Bool
  ifs_card : Nat
  ifs_dev : Nat
  nad_card : Nat
  nad_dev : Nat
  bwt : Nat
  retries : Nat
  request : Nat
  wtx_wtx : Nat
  wtx_rounds : Int
  need_reset : Bool
  need_resync : Bool
  need_ifsd_sync : Bool
  atr_buf : List Nat
  atr_len : Nat
  send_buf : List Nat
  send_len : Nat
  send_next : Nat
  recv_buf : List Nat
  recv_len : Nat
  recv_next : Nat
  recv_size : Nat
  recv_size_acc : Nat
  recv_max : Nat
  buf : List Nat
  n : Nat
deriving DecidableEq, Repr

/-- `T1Proto::default` (src/proto.rs lines 780-803) with `Need::default`
(reset = true), `Ifs::default` (32/32), `Wtx::default` (1/200). -/
def t1Default : T1State where
  halt := false
  state_request := false
  reqresp := false
  badcrc := false
  state_timeout := false
  aborted := false
  ifs_card := 32
  ifs_dev := 32
  nad_card := 0
  nad_dev := 0
  bwt := 300
  retries := 3
  request := 0xff
  wtx_wtx := 1
  wtx_rounds := 200
  need_reset := true
  need_resync := false
  need_ifsd_sync := false
  atr_buf := List.replicate 32 0
  atr_len := 0
  send_buf := []
  send_len := 0
  send_next := 0
  recv_buf := []
  recv_len := 0
  recv_next := 0
  recv_size := 0
  recv_size_acc := 0
  recv_max := 65538
  buf := List.replicate 260 0
  n := 0

/-- `T1Proto::set_nad` (src/proto.rs lines 139-142). -/
def set_nad (st : T1State) (card_nad dev_nad : Nat) : T1State :=
  { st with nad_card := card_nad, nad_dev := dev_nad }

/-- Modelled from the spec: `T1Proto::set_soft_reset` is invoked by
`Transmission::init` (src/lib.rs line 150) but its definition is missing from
src/proto.rs.  Per the spec — section 3 ("parameterised with NAD (required)
and optional soft-reset flag"), section 6 ("soft_reset: bool (default
false)") and section 8 scenario 1 (a configured engine's first `transmit`
writes exactly one I-block, hence no reset exchange is pending after
configuration with the default soft_reset = false) — it records whether a
software reset exchange is needed: `need.reset := soft_reset`. -/
def set_soft_reset (st : T1State) (soft : Bool) : T1State :=
  { st with need_reset := soft }

/-- `T1Proto::clear_states` (src/proto.rs lines 195-206): resets the flag
block, the WTX state, retries, the pending request code, the window lengths
and the scratch length; everything else is untouched. -/
def clear_states (st : T1State) : T1State :=
  { st with
    halt := false, state_request := false, reqresp := false, badcrc := false,
    state_timeout := false, aborted := false,
    wtx_wtx := 1, wtx_rounds := 200,
    retries := 3, request := 0xff,
    send_len := 0, recv_len := 0, recv_size := 0, recv_size_acc := 0, n := 0 }

/-- `T1Proto::process_init` (src/proto.rs lines 208-220). -/
def process_init (st : T1State) : T1State :=
  if st.need_reset then
    { st with state_request := true, request := 5 }
  else if st.need_resync then
    { st with state_request := true, request := 0 }
  else if st.need_ifsd_sync then
    { st with state_request := true, request := 1, ifs_dev := 254 }
  else
    st

/-- `T1Proto::lrc8` (src/proto.rs lines 222-230): XOR of `buf[..n]`. -/
def lrc8 (st : T1State) (n : Nat) : Nat :=
  (st.buf.take n).foldl (fun a b => a ^^^ b) 0

/-- `T1Proto::append_lrc8` (src/proto.rs lines 232-236): stores the LRC at
index `n` and returns the new length `n + 1`. -/
def append_lrc8 (st : T1State) (n : Nat) : T1State × Nat :=
  ({ st with buf := st.buf.set n (lrc8 st n) }, n + 1)

/-- `T1Proto::do_chk` (src/proto.rs lines 238-244). -/
def do_chk (st : T1State) : T1State :=
  let n := 3 + st.buf.getD 2 0
  let p := append_lrc8 st n
  { p.1 with n := p.2 }

/-- `T1Proto::write_request` (src/proto.rs lines 246-268). -/
def write_request (st : T1State) (mask : Nat) : T1State :=
  let request := st.request ||| mask
  let buf := (st.buf.set 0 st.nad_dev).set 1 (0xc0 ||| request)
  let r := request &&& 0x1f
  let buf :=
    if r = 1 then
      let b3 := if buf.getD 1 0 &&& 0x20 ≠ 0 then st.ifs_card else st.ifs_dev
      (buf.set 2 1).set 3 b3
    else if r = 3 then
      (buf.set 2 1).set 3 st.wtx_wtx
    else
      buf.set 2 0
  do_chk { st with buf := buf }

/-- `T1Proto::write_rblock` (src/proto.rs lines 270-279). -/
def write_rblock (st : T1State) (k : Nat) : T1State :=
  let pcb := 0x80 ||| (k &&& 3)
  let pcb := if st.recv_next ≠ 0 then pcb ||| 0x10 else pcb
  let buf := ((st.buf.set 0 st.nad_dev).set 1 pcb).set 2 0
  do_chk { st with buf := buf }

/-- `T1Proto::write_iblock` (src/proto.rs lines 281-302).  `none` models a
panic: either `n.try_into().unwrap()` for `n > 255`, or — the case actually
reachable — `buf[3..n+3].copy_from_slice(send.buf)` when the whole remaining
send window `send.buf` is longer than the clamped INF length `n`. -/
def write_iblock (st : T1State) : Option T1State :=
  let n0 := st.send_len
  let n := if n0 > st.ifs_card then st.ifs_card else n0
  let pcb := if n0 > st.ifs_card then 0x20 else 0
  let pcb := if st.send_next ≠ 0 then pcb ||| 0x40 else pcb
  if n ≤ 255 then
    let buf := ((st.buf.set 0 st.nad_dev).set 1 pcb).set 2 n
    (copyFromSlice buf 3 (n + 3) st.send_buf).map
      (fun b => do_chk { st with buf := b })
  else
    none

/-- `T1Proto::zero` (src/proto.rs lines 771-777). -/
def zero (v : Nat) : Nat :=
  if v = 0 then 0 else 1

/-- `T1Proto::block_kind` (src/proto.rs lines 423-431). -/
def block_kind (st : T1State) : Block :=
  if st.buf.getD 1 0 &&& 0x80 = 0 then .I
  else if st.buf.getD 1 0 &&& 0x40 = 0 then .R
  else .S

/-- `T1Proto::send_window_size` (src/proto.rs lines 512-514). -/
def send_window_size (st : T1State) : Nat :=
  st.send_len

/-- `T1Proto::recv_window_size` (src/proto.rs lines 504-506). -/
def recv_window_size (st : T1State) : Nat :=
  st.recv_len

/-- `T1Proto::recv_window_free_size` (src/proto.rs lines 508-510). -/
def recv_window_free_size (st : T1State) : Int :=
  (st.recv_size : Int) - (st.recv_len : Int)

/-- `T1Proto::recv_window_append` (src/proto.rs lines 516-529).  The copy is
`recv.buf[recv.len..un].copy_from_slice(&buf[3..un+3])`: destination range
`[recv.len, un)` against a source of `un` bytes, exactly as written in the
source.  `none` models the panic. -/
def recv_window_append (st : T1State) : Option T1State :=
  let free := recv_window_free_size st
  let n0 : Int := (st.buf.getD 2 0 : Int)
  let n := if n0 > free then free else n0
  if n > 0 then
    let un := n.toNat
    match copyFromSlice st.recv_buf st.recv_len un ((st.buf.drop 3).take un) with
    | some rb => some { st with recv_buf := rb, recv_len := st.recv_len + un }
    | none => none
  else
    some st

/-- `T1Proto::close_send_window` (src/proto.rs lines 531-534). -/
def close_send_window (st : T1State) : T1State :=
  { st with send_buf := [], send_len := 0 }

/-- `T1Proto::close_recv_window` (src/proto.rs lines 536-540). -/
def close_recv_window (st : T1State) : T1State :=
  { st with recv_buf := [], recv_len := 0, recv_size := 0 }

/-- `T1Proto::ack_iblock` (src/proto.rs lines 542-552): advance the send
window by `min(send.len, ifs.card)` and toggle the send sequence bit.
`none` models the slice panic of `&send.buf[n..]` when `n` exceeds the
length of `send.buf`. -/
def ack_iblock (st : T1State) : Option T1State :=
  let n := if st.send_len > st.ifs_card then st.ifs_card else st.send_len
  if n ≤ st.send_buf.length then
    some { st with
      send_buf := st.send_buf.drop n,
      send_len := st.send_len - n,
      send_next := st.send_next ^^^ 1 }
  else
    none

/-- `T1Proto::parse_iblock` (src/proto.rs lines 554-565); returns the
M-bit indicator `zero(pcb AND 0x20)` alongside the new state, `none` on a
panic inside `recv_window_append`. -/
def parse_iblock (st : T1State) : Option (T1State × Nat) :=
  let pcb := st.buf.getD 1 0
  let next := zero (pcb &&& 0x40)
  if st.recv_next = next then
    match recv_window_append { st with recv_next := st.recv_next ^^^ 1 } with
    | some st2 =>
        some ({ st2 with recv_size_acc := st2.recv_size_acc + st2.buf.getD 2 0 },
              zero (pcb &&& 0x20))
    | none => none
  else
    some (st, zero (pcb &&& 0x20))

/-- `T1Proto::parse_rblock` (src/proto.rs lines 567-606); `none` models a
panic inside `ack_iblock`. -/
def parse_rblock (st : T1State) : Option (T1State × Except T1Err Unit) :=
  let pcb := st.buf.getD 1 0
  let next := zero (pcb &&& 0x10)
  if pcb &&& 0x2f = 0 then
    if st.send_next ^^^ next ≠ 0 then
      match ack_iblock { st with retries := 3 } with
      | some st2 => some (st2, .ok ())
      | none => none
    else
      let st2 := { st with retries := st.retries - 1 }
      if st2.retries = 0 then some (st2, .error .RbTimeout) else some (st2, .ok ())
  else if pcb &&& 0x2f = 1 then
    some ({ st with retries := st.retries - 1, send_next := next }, .error .PrevBlkCrc)
  else if pcb &&& 0x2f = 2 then
    if st.halt then some (st, .error .RbHalt) else some (st, .ok ())
  else if pcb &&& 0x2f = 3 then
    some ({ st with retries := st.retries - 1, state_request := true, request := 0 },
          .error .RbResync)
  else
    some ({ st with halt := true }, .error .RbNotSupported)

/-- `T1Proto::parse_request` (src/proto.rs lines 608-661). -/
def parse_request (st : T1State) : T1State × Except T1Err Unit :=
  let request := st.buf.getD 1 0 &&& 0x3f
  let st := { st with request := request }
  if request = 0 then
    (st, .error .ReqResync)
  else if request = 1 then
    if st.buf.getD 2 0 ≠ 1 then
      (st, .error (.ErrorBadMsg1 (st.buf.getD 2 0)))
    else if st.buf.getD 3 0 = 0 ∨ st.buf.getD 3 0 = 0xFF then
      (st, .error (.ErrorBadMsg2 (st.buf.getD 2 0)))
    else
      ({ st with ifs_card := st.buf.getD 3 0, reqresp := true }, .ok ())
  else if request = 2 then
    if st.buf.getD 2 0 = 0 then
      ({ close_recv_window (close_send_window { st with aborted := true }) with
         reqresp := true }, .ok ())
    else
      (st, .error (.ErrorBadMsg3 (st.buf.getD 2 0)))
  else if request = 3 then
    if st.buf.getD 2 0 ≥ 2 then
      (st, .error (.ErrorBadMsg4 (st.buf.getD 2 0)))
    else if st.buf.getD 2 0 = 1 then
      let w := st.buf.getD 3 0
      let w := if w > 1 then 1 else w
      let st := { st with wtx_wtx := w, wtx_rounds := st.wtx_rounds - 1 }
      if st.wtx_rounds ≤ 0 then
        ({ st with retries := 0 }, .error .NoRoundsLeft)
      else
        ({ st with reqresp := true }, .ok ())
    else
      ({ st with reqresp := true }, .ok ())
  else
    ({ st with reqresp := true }, .ok ())

/-- `T1Proto::parse_atr` (src/proto.rs lines 433-462).  The walk is a fold
over all 32 bytes of `atr.buf` carrying `(y, tck, proto, ifsc)`; `y` and
`ifsc` are `i32` values, `tck` a byte, `proto` a bit set.  The final
`ifsc as u8` truncation is `emod 256`. -/
def parse_atr (st : T1State) : T1State :=
  let y0 : Int := if st.atr_len = 0 then 0 else (st.atr_buf.getD 0 0 : Int)
  let step := fun (acc : Int × Nat × Nat × Int) (c : Nat) =>
    let y := acc.1
    let tck := acc.2.1 ^^^ c
    let proto := acc.2.2.1
    let ifsc := acc.2.2.2
    if i32Land y 0xf0 = 0x80 then
      ((c : Int), tck, proto ||| (1 <<< (c &&& 15)), ifsc)
    else if y ≥ 16 then
      let ifsc2 := if ifsc < 0 ∧ i32Land y 0x1f = 0x11 then (c : Int) else ifsc
      (i32Land y (y - 16).toNat, tck, proto, ifsc2)
    else
      (-1, tck, proto, ifsc)
  let r := st.atr_buf.foldl step (y0, y0.toNat, 0, -1)
  if r.2.2.1 &&& 2 ≠ 0 ∧ r.2.1 = 0 then
    { st with ifs_card := (r.2.2.2.emod 256).toNat }
  else
    st

/-- `T1Proto::parse_response` (src/proto.rs lines 464-502).  Note that the
IFS arm tests `(buf[2] != 1) && (buf[3] != ifs.dev)` — a conjunction — and
that the RESET arm clears `need.reset` before the ATR length check. -/
def parse_response (st : T1State) : T1State × Except T1Err Bool :=
  let pcb := st.buf.getD 1 0
  if pcb &&& 0x20 = 0 then
    (st, .ok false)
  else
    let pcb := pcb &&& 0x1f
    if pcb ≠ st.request then
      (st, .ok false)
    else if pcb = 1 then
      let st := { st with need_ifsd_sync := false }
      if st.buf.getD 2 0 ≠ 1 ∧ st.buf.getD 3 0 ≠ st.ifs_dev then
        (st, .error .BadMsgIfs)
      else
        (st, .ok true)
    else if pcb = 5 then
      let st := { st with need_reset := false }
      if st.buf.getD 2 0 ≤ 32 then
        let len := st.buf.getD 2 0
        let st := { st with
          atr_len := len,
          atr_buf := writeRange st.atr_buf 0 ((st.buf.drop 3).take len) }
        (parse_atr st, .ok true)
      else
        (st, .error .BadMsgRst)
    else if pcb = 0 then
      ({ st with need_resync := false, send_next := 0, recv_next := 0 }, .ok true)
    else
      (st, .error .NeverReq)

/-- `T1Proto::chk_algo_len` (src/proto.rs lines 327-331): 1 for LRC. -/
def chk_algo_len : Nat := 1

/-- `T1Proto::chk_is_good` (src/proto.rs lines 391-404): recompute the LRC
over `buf[..3+LEN]` and compare with the stored checksum byte. -/
def chk_is_good (st : T1State) : Except T1Err Unit :=
  let n := 3 + st.buf.getD 2 0
  let chk := lrc8 st n
  if chk ≠ st.buf.getD n 0 then .error (.BadCrc chk (st.buf.getD n 0)) else .ok ()

/-- The NAD-polling loop of `T1Proto::block_recv` (src/proto.rs lines
349-365), with the cooperative `Clock` of src/clock.rs inlined: each
iteration sleeps 2 ms (`time + 2`), reads one byte, breaks on the card NAD
and reports `Timeout` once the accumulated time exceeds the effective BWT.
A read that yields no byte (exhausted stream) is the short-read error
`ReadNadLen(0, 1)`.  Structural recursion on the finite stream. -/
def nad_wait (st : T1State) (bwt_eff : Nat) :
    List Nat → Nat → T1State × List Nat × Except T1Err Unit
  | [], _ => (st, [], .error (.ReadNadLen 0 1))
  | b :: rest, time =>
    let time := time + 2
    let st2 := { st with buf := st.buf.set 0 b, n := 1 }
    if b = st2.nad_card then (st2, rest, .ok ())
    else if time > bwt_eff then (st2, rest, .error (.Timeout bwt_eff))
    else nad_wait st2 bwt_eff rest time

/-- `T1Proto::block_recv` (src/proto.rs lines 333-389): wait for the card
NAD, then read the 3-byte remainder-of-header window (`2 + chk_algo_len`),
then the LEN-byte tail.  The read callback is the harness cursor: a request
for `k` bytes takes `min k remaining` from the stream. -/
def block_recv (st : T1State) (stream : List Nat) :
    T1State × List Nat × Except T1Err Unit :=
  let st := { st with n := 0 }
  let bwt_eff := st.bwt * (if st.wtx_wtx ≠ 0 then st.wtx_wtx else 1)
  let st := { st with wtx_wtx := 1 }
  match nad_wait st bwt_eff stream 0 with
  | (st, rest, .error e) => (st, rest, .error e)
  | (st, rest, .ok ()) =>
    let taken := rest.take 3
    let rest := rest.drop 3
    let st := { st with buf := writeRange st.buf st.n taken }
    if taken.length ≠ 3 then
      (st, rest, .error (.ReadHdrLen taken.length 3))
    else
      let st := { st with n := st.n + 3 }
      let len := st.buf.getD 2 0
      if 3 + len > 260 then
        (st, rest, .error (.RecvLen (3 + len) len))
      else if len ≠ 0 then
        let taken2 := rest.take len
        let rest2 := rest.drop len
        let st := { st with buf := writeRange st.buf st.n taken2 }
        if taken2.length ≠ len then
          (st, rest2, .error (.ReadDataLen taken2.length len))
        else
          ({ st with n := st.n + len }, rest2, .ok ())
      else
        (st, rest, .ok ())

/-- `T1Proto::read_block` (src/proto.rs lines 406-421). -/
def read_block (st : T1State) (stream : List Nat) :
    T1State × List Nat × Except T1Err Unit :=
  match block_recv st stream with
  | (st, rest, .error e) => (st, rest, .error e)
  | (st, rest, .ok ()) =>
    if st.n < 3 then (st, rest, .error (.ReadLen st.n))
    else if st.buf.getD 0 0 ≠ st.nad_card then
      (st, rest, .error (.ReadNadVal (st.buf.getD 0 0)))
    else if st.buf.getD 2 0 = 255 then (st, rest, .error .ReadLen255)
    else (st, rest, chk_is_good st)

/-- `T1Proto::request_init` (src/proto.rs lines 304-325): stage the next
outbound block by priority.  `none` models a panic inside `write_iblock`. -/
def request_init (st : T1State) : Option (Except T1Err T1State) :=
  if st.state_request then
    some (.ok (write_request st 0x00))
  else if st.reqresp then
    some (.ok { write_request st 0x20 with reqresp := false })
  else if st.badcrc then
    some (.ok (write_rblock st 1))
  else if st.state_timeout then
    some (.ok (write_rblock st 0))
  else if send_window_size st ≠ 0 then
    match write_iblock st with
    | some st2 => some (.ok st2)
    | none => none
  else if st.aborted then
    some (.error .Aborted)
  else if recv_window_size st > 0 then
    some (.ok (write_rblock st 0))
  else
    some (.error .NoRespIBlock)

/-- The classification of a `read_block` failure in `T1Proto::process`
(src/proto.rs lines 679-688): decrement retries, then set `badcrc` on a
checksum error, set `timeout` on a BWT timeout, and zero the retries on any
other error. -/
def read_fail_update (st : T1State) (e : T1Err) : T1State :=
  let st := { st with retries := st.retries - 1 }
  match e with
  | .BadCrc _ _ => { st with badcrc := true }
  | .Timeout _ => { st with state_timeout := true }
  | _ => { st with retries := 0 }

deriving instance DecidableEq for Except

/-- Outcome of the fueled main loop: `panic` models a Rust panic,
`fuelOut` means the fuel bound was hit (never a claim about the code), and
`done` carries the returned `ret`, the final state, the unread remainder of
the stream and the log of written blocks. -/
inductive POut where
  | panic : POut
  | fuelOut : POut
  | done : Except T1Err Unit → T1State → List Nat → List (List Nat) → POut
deriving DecidableEq, Repr

/-- The `while !halt && retries > 0` loop of `T1Proto::process`
(src/proto.rs lines 672-768), one constructor-faithful iteration per unit of
fuel.  The write callback is modelled as always accepting the full block
(appending `buf[..n]` to the log), like the test harness. -/
def processLoop : Nat → T1State → List Nat → List (List Nat) →
    Except T1Err Unit → POut
  | 0, _, _, _, _ => .fuelOut
  | fuel + 1, st, stream, w, ret =>
    if st.halt ∨ st.retries = 0 then
      .done ret st stream w
    else
      match request_init st with
      | none => .panic
      | some (.error e) => .done (.error e) st stream w
      | some (.ok st1) =>
        let w := w ++ [st1.buf.take st1.n]
        match read_block st1 stream with
        | (st2, rest, .error e) =>
            processLoop fuel (read_fail_update st2 e) rest w (.error e)
        | (st2, rest, .ok ()) =>
          if st2.badcrc ∧ st2.buf.getD 1 0 &&& 0xef = 0x81 then
            processLoop fuel { st2 with retries := st2.retries - 1 } rest w
              (.error .StateBadCrc)
          else
            let st3 := { st2 with badcrc := false, state_timeout := false }
            if st3.state_request then
              if block_kind st3 = .S then
                match parse_response st3 with
                | (st4, .error e) =>
                    processLoop fuel { st4 with halt := true } rest w (.error e)
                | (st4, .ok true) =>
                    let st5 := { st4 with state_request := false }
                    let st5 :=
                      if recv_window_free_size st5 = 0 then { st5 with halt := true }
                      else st5
                    let st5 := { st5 with retries := 3 }
                    let st5 :=
                      if st5.request = 5 then
                        { st5 with state_request := true, request := 1, ifs_dev := 254, need_ifsd_sync := true }
                      else st5
                    processLoop fuel st5 rest w ret
                | (st4, .ok false) =>
                    processLoop fuel { st4 with retries := st4.retries - 1 } rest w
                      (.error .Ebade)
              else
                processLoop fuel { st3 with retries := st3.retries - 1 } rest w
                  (.error .Ebade)
            else
              match block_kind st3 with
              | .I =>
                let st4 := { st3 with retries := 3 }
                let st4? :=
                  if send_window_size st4 ≠ 0 then ack_iblock st4 else some st4
                match st4? with
                | none => .panic
                | some st4 =>
                  match parse_iblock st4 with
                  | none => .panic
                  | some (st5, nI) =>
                    if st5.aborted then
                      processLoop fuel st5 rest w ret
                    else if st5.recv_size_acc > st5.recv_max then
                      processLoop fuel { st5 with halt := true } rest w
                        (.error (.RecvMsgSize st5.recv_size_acc st5.recv_max))
                    else
                      let st6 :=
                        if nI = 0 ∧ send_window_size st5 = 0 then
                          { st5 with halt := true }
                        else st5
                      processLoop fuel { st6 with wtx_rounds := 200 } rest w ret
              | .R =>
                match parse_rblock st3 with
                | none => .panic
                | some (st4, r) =>
                    processLoop fuel { st4 with wtx_rounds := 200 } rest w r
              | .S =>
                let p := parse_request st3
                let st4 := p.1
                let st4 :=
                  match p.2 with
                  | .ok () => { st4 with reqresp := true }
                  | .error .NoRoundsLeft => st4
                  | .error _ => { st4 with halt := true }
                processLoop fuel st4 rest w p.2

/-- `T1Proto::process` (src/proto.rs lines 663-769): `process_init` followed
by the main loop, starting from `ret = Ok(())` and an empty write log. -/
def process (st : T1State) (stream : List Nat) (fuel : Nat) : POut :=
  processLoop fuel (process_init st) stream [] (.ok ())

/-- `T1Proto::reset` (src/proto.rs lines 148-157). -/
def reset (st : T1State) (stream : List Nat) (fuel : Nat) : POut :=
  process { clear_states st with need_reset := true } stream fuel

/-- Outcome of `atr` / `transmit`: like `POut` but carrying the returned
byte slice on success. -/
inductive TOut where
  | panic : TOut
  | fuelOut : TOut
  | done : Except T1Err (List Nat) → T1State → List Nat → List (List Nat) → TOut
deriving DecidableEq, Repr

/-- `T1Proto::atr` (src/proto.rs lines 159-169): run `reset` only when
`need.reset` is set, then return `atr.buf[..atr.len]`. -/
def atr (st : T1State) (stream : List Nat) (fuel : Nat) : TOut :=
  if st.need_reset then
    match reset st stream fuel with
    | .panic => .panic
    | .fuelOut => .fuelOut
    | .done (.error e) st2 rest w => .done (.error e) st2 rest w
    | .done (.ok ()) st2 rest w =>
        .done (.ok (st2.atr_buf.take st2.atr_len)) st2 rest w
  else
    .done (.ok (st.atr_buf.take st.atr_len)) st stream []

/-- The window installation at the head of `T1Proto::transmit`
(src/proto.rs lines 182-188): `clear_states`, then point the send window at
the C-APDU and the receive window at the R-APDU buffer (modelled as `cap`
zero bytes, like the `[0u8; 258]` buffer of the tests). -/
def install_windows (st : T1State) (capdu : List Nat) (cap : Nat) : T1State :=
  { clear_states st with
    send_buf := capdu, send_len := capdu.length,
    recv_buf := List.replicate cap 0, recv_len := 0, recv_size := cap }

/-- `T1Proto::transmit` (src/proto.rs lines 171-193): install the windows,
run `process` and return `recv.buf[..recv.len]`. -/
def transmit (st : T1State) (capdu : List Nat) (cap : Nat) (stream : List Nat)
    (fuel : Nat) : TOut :=
  match process (install_windows st capdu cap) stream fuel with
  | .panic => .panic
  | .fuelOut => .fuelOut
  | .done (.error e) st2 rest w => .done (.error e) st2 rest w
  | .done (.ok ()) st2 rest w =>
      .done (.ok (st2.recv_buf.take st2.recv_len)) st2 rest w

/-- Result projection of a `TOut`. -/
def TOut.resVal : TOut → Option (Except T1Err (List Nat))
  | .done r _ _ _ => some r
  | _ => none

/-- Final-state projection of a `TOut` (defaulting to `t1Default`). -/
def TOut.finalSt : TOut → T1State
  | .done _ st _ _ => st
  | _ => t1Default

/-- Write-log projection of a `TOut`. -/
def TOut.wlog : TOut → Option (List (List Nat))
  | .done _ _ _ w => some w
  | _ => none

/-- The outer `Transmission` context of src/lib.rs (lines 94-132), reduced to
the parts that influence protocol behaviour: the engine state, the `inited`
flag, the configured NADs, the `soft_reset` flag and the presence of the
read/write/sleep callbacks (the optional init/release/cold-reset callbacks
only touch the external interface handle and are omitted). -/
structure Transmission where
  t1 : T1State
  inited : Bool
  card_nad : Option Nat
  dev_nad : Option Nat
  soft_reset : Bool
  read_set : Bool
  write_set : Bool
  sleep_set : Bool
deriving DecidableEq, Repr

/-- Errors of `lib::Error<E>` (src/lib.rs lines 337-365); callback-wrapping
variants carry no payload because the modelled callbacks never fail. -/
inductive TxErr where
  | T1 (e : T1Err)
  | InitCbErr
  | ReleaseCbErr
  | ResetCbErr
  | NadNotSet
  | NoReadCb
  | NoWriteCb
  | NoSleepCb
  | AlreadyInited
deriving DecidableEq, Repr

/-- `Transmission::init` (src/lib.rs lines 136-154): reject double init,
require both NADs and the sleep callback, then configure the engine with
`set_nad` and `set_soft_reset` and mark the context initialized. -/
def Transmission.init (tr : Transmission) : Except TxErr Transmission :=
  if tr.inited then
    .error .AlreadyInited
  else
    match tr.card_nad, tr.dev_nad with
    | some c, some d =>
      if tr.sleep_set then
        .ok { tr with t1 := set_soft_reset (set_nad tr.t1 c d) tr.soft_reset,
                      inited := true }
      else
        .error .NoSleepCb
    | _, _ => .error .NadNotSet

/-- `Transmission::try_init` (src/lib.rs lines 210-216). -/
def Transmission.tryInit (tr : Transmission) : Except TxErr Transmission :=
  if tr.inited then .ok tr else tr.init

/-- Outcome of `Transmission::transmit`. -/
inductive XOut where
  | panic : XOut
  | fuelOut : XOut
  | done : Except TxErr (List Nat) → Transmission → List Nat → List (List Nat) → XOut
deriving DecidableEq, Repr

/-- `Transmission::transmit` (src/lib.rs lines 187-196): `try_init`, require
the read and write callbacks, and delegate to `T1Proto::transmit` — there is
no validation of the C-APDU at this layer. -/
def Transmission.transmit (tr : Transmission) (capdu : List Nat) (cap : Nat)
    (stream : List Nat) (fuel : Nat) : XOut :=
  match tr.tryInit with
  | .error e => .done (.error e) tr stream []
  | .ok tr =>
    if tr.read_set then
      if tr.write_set then
        match Iso7816.transmit tr.t1 capdu cap stream fuel with
        | .panic => .panic
        | .fuelOut => .fuelOut
        | .done (.error e) st rest w =>
            .done (.error (.T1 e)) { tr with t1 := st } rest w
        | .done (.ok r) st rest w =>
            .done (.ok r) { tr with t1 := st } rest w
      else
        .done (.error .NoWriteCb) tr stream []
    else
      .done (.error .NoReadCb) tr stream []

/-- Result projection of an `XOut`. -/
def XOut.resVal : XOut → Option (Except TxErr (List Nat))
  | .done r _ _ _ => some r
  | _ => none

/-- Write-log projection of an `XOut`. -/
def XOut.wlog : XOut → Option (List (List Nat))
  | .done _ _ _ w => some w
  | _ => none

/-- The engine as configured by `Transmission::init` with the test-suite
NADs (card 0x15, device 0x51) and the default `soft_reset = false`:
`set_soft_reset(set_nad(default, 0x15, 0x51), false)`. -/
def cfg15_51 : T1State :=
  set_soft_reset (set_nad t1Default 0x15 0x51) false

/-- A fresh engine at the proto level with the test-suite NADs: `need.reset`
is still `true` from `Need::default`. -/
def fresh15_51 : T1State :=
  set_nad t1Default 0x15 0x51

/-- A `Transmission` built like the test suite's `transmission()` helper:
all callbacks set, NADs 0x15/0x51, `soft_reset` left at its default
`false`, not yet initialized. -/
def tr15_51 : Transmission where
  t1 := t1Default
  inited := false
  card_nad := some 0x15
  dev_nad := some 0x51
  soft_reset := false
  read_set := true
  write_set := true
  sleep_set := true

/-- Result projection of a `POut`. -/
def POut.resVal : POut → Option (Except T1Err Unit)
  | .done r _ _ _ => some r
  | _ => none

/-- Final-state projection of a `POut` (defaulting to `t1Default`). -/
def POut.finalSt : POut → T1State
  | .done _ st _ _ => st
  | _ => t1Default

/-- Write-log projection of a `POut`. -/
def POut.wlog : POut → Option (List (List Nat))
  | .done _ _ _ w => some w
  | _ => none

theorem take_set_of_le (a : Nat) :
    ∀ (l : List Nat) (i m : Nat), m ≤ i → (l.set i a).take m = l.take m := by
  intro l
  induction l with
  | nil => intro i m _; rfl
  | cons x xs ih =>
    intro i m h
    cases i with
    | zero =>
      have : m = 0 := Nat.le_zero.mp h
      subst this; rfl
    | succ i =>
      cases m with
      | zero => rfl
      | succ m =>
        simp only [List.set_cons_succ, List.take_succ_cons]
        rw [ih i m (Nat.le_of_succ_le_succ h)]

theorem getD_set_self (l : List Nat) (i a : Nat) (h : i < l.length) :
    (l.set i a).getD i 0 = a := by
  rw [List.getD_eq_getElem?_getD, List.getElem?_set_self h]
  rfl

theorem getD_set_ne (l : List Nat) (i j a : Nat) (h : i ≠ j) :
    (l.set i a).getD j 0 = l.getD j 0 := by
  rw [List.getD_eq_getElem?_getD, List.getElem?_set_ne h, ← List.getD_eq_getElem?_getD]

theorem length_writeRange :
    ∀ (src l : List Nat) (i : Nat), (writeRange l i src).length = l.length := by
  intro src
  induction src with
  | nil => intro l i; rfl
  | cons a rest ih => intro l i; rw [writeRange, ih, List.length_set]

theorem getD_writeRange_lt :
    ∀ (src l : List Nat) (i j : Nat), j < i →
      (writeRange l i src).getD j 0 = l.getD j 0 := by
  intro src
  induction src with
  | nil => intro l i j _; rfl
  | cons a rest ih =>
    intro l i j h
    rw [writeRange, ih _ (i + 1) j (Nat.lt_succ_of_lt h),
      getD_set_ne _ i j _ (Nat.ne_of_gt h)]

theorem copyFromSlice_eq_some {dst : List Nat} {start stop : Nat}
    {src r : List Nat} (h : copyFromSlice dst start stop src = some r) :
    r = writeRange dst start src ∧ start ≤ stop ∧ stop ≤ dst.length ∧
      src.length = stop - start := by
  unfold copyFromSlice at h
  split at h
  · rename_i hc
    injection h with h
    exact ⟨h.symm, hc.1, hc.2.1, hc.2.2⟩
  · exact absurd h (by simp)

/-- After `do_chk`, re-verification succeeds: the stored checksum byte is by
construction the LRC of the preceding `3 + LEN` bytes. -/
theorem chk_is_good_do_chk (st : T1State)
    (h : 3 + st.buf.getD 2 0 < st.buf.length) :
    chk_is_good (do_chk st) = .ok () := by
  have h2 : (3 + st.buf.getD 2 0) ≠ 2 := by omega
  have hbuf : (do_chk st).buf
      = st.buf.set (3 + st.buf.getD 2 0) (lrc8 st (3 + st.buf.getD 2 0)) := rfl
  simp only [chk_is_good, lrc8, hbuf]
  rw [getD_set_ne _ _ _ _ h2]
  rw [take_set_of_le _ _ _ _ (Nat.le_refl _), getD_set_self _ _ _ h]
  simp

/-- The claim C1 exchange: C-APDU 80CA9F7F against the card byte stream
15 00 05 9F 7F 55 90 00 35, on the test-suite configuration. -/
def run1 : TOut :=
  transmit cfg15_51 [0x80, 0xCA, 0x9F, 0x7F] 258
    [0x15, 0x00, 0x05, 0x9F, 0x7F, 0x55, 0x90, 0x00, 0x35] 20

/-- Claim C1: on an engine configured with card NAD 0x15 and device NAD 0x51
(the Transmission layer configuration, whose default soft_reset = false
leaves no reset pending), `transmit` with C-APDU 80CA9F7F against a read
stream 15 00 05 9F 7F 55 90 00 35 returns Ok with R-APDU 9F7F559000, and
over the whole call exactly one block is written: the I-block
51 00 04 80 CA 9F 7F followed by its LRC byte 0xFF, which is the XOR of the
seven preceding bytes. -/
theorem c1_happy_path_transmit :
    run1.resVal = some (.ok [0x9F, 0x7F, 0x55, 0x90, 0x00]) ∧
    run1.wlog = some [[0x51, 0x00, 0x04, 0x80, 0xCA, 0x9F, 0x7F, 0xFF]] ∧
    [0x51, 0x00, 0x04, 0x80, 0xCA, 0x9F, 0x7F].foldl (fun a b => a ^^^ b) 0
      = 0xFF := by
  refine ⟨by decide, by decide, by decide⟩

/-- An engine state about to emit an I-block with 33 bytes left to send and
the default card IFSC of 32: the situation `write_iblock` reaches on the
first iteration of a transmit whose C-APDU is longer than 32 bytes. -/
def stC2 : T1State :=
  { cfg15_51 with send_buf := List.replicate 33 0, send_len := 33 }

/-- Claim C2 (code bug): `write_iblock` is not total.  With more than IFSC
bytes remaining, the INF length is clamped to `ifs.card = 32` but the copy
`buf[3..n+3].copy_from_slice(self.send.buf)` feeds the WHOLE remaining
33-byte send window into the 32-byte destination slice, which panics, so a
transmit of any C-APDU longer than the card IFSC panics on its very first
block instead of chaining (the repository's own `test_transmit_too_long`
expects `Err(..)` for a 1024-byte C-APDU). -/
theorem c2_write_iblock_panics :
    write_iblock stC2 = none ∧
    transmit cfg15_51 (List.replicate 33 0) 258 [] 20 = .panic := by
  refine ⟨by decide, by decide⟩

/-- An engine state in which a first chained I-block payload of 5 bytes has
already been appended (recv.len = 5) and a second accepted I-block with
LEN = 5 is in the scratch buffer. -/
def stC3 : T1State :=
  { cfg15_51 with
    recv_buf := List.replicate 258 0, recv_len := 5,
    recv_size := 258, buf := cfg15_51.buf.set 2 5 }

/-- Claim C3 (code bug): `recv_window_append` mis-slices the destination as
`recv.buf[recv.len..un]` (length `un - recv.len`) while copying `un` source
bytes, so every append after the first (recv.len > 0, LEN > 0) panics
instead of copying to the tail; a transmit whose card answers with two
chained I-blocks panics instead of assembling a contiguous response. -/
theorem c3_recv_append_panics :
    recv_window_append stC3 = none ∧
    transmit cfg15_51 [0x80, 0xCA, 0x9F, 0x7F] 258
      ([0x15, 0x20, 0x05, 0x9F, 0x7F, 0x55, 0x90, 0x00, 0x15] ++
        [0x15, 0x40, 0x05, 0x01, 0x02, 0x03, 0x04, 0x05, 0x51]) 20 = .panic := by
  refine ⟨by decide, by decide⟩

/-- The claim C4 exchange: a fresh proto-level engine (Need::default leaves
need.reset = true) whose first call is `atr`, with the card ready to answer
the S(RESET response) with ATR payload 00 and then the S(IFS response). -/
def run4 : TOut :=
  atr fresh15_51
    [0x15, 0xE5, 0x01, 0x00, 0xF1, 0x15, 0xE1, 0x01, 0xFE, 0x0B] 20

/-- Claim C4 counterexample: the first `atr` call on a fresh engine accepts
the card's S(RESET response) — the ATR payload 00 is returned — yet the
whole call writes exactly ONE block, the S(RESET request) 51 C5 00 94; no
S(IFS request) is sent within the same process loop (the claim requires the
wire sequence of the call to contain it), because accepting the response
with an empty receive window sets halt before the staged IFS request can be
emitted, and need.ifsd_sync is left pending. -/
theorem c4_counterexample :
    run4.resVal = some (.ok [0x00]) ∧
    run4.wlog = some [[0x51, 0xC5, 0x00, 0x94]] ∧
    (run4.wlog.getD []).length = 1 ∧
    run4.finalSt.need_ifsd_sync = true := by
  refine ⟨by decide, by decide, by decide, by decide⟩

/-- Claim C4 amended: on a fresh engine whose first call is `atr`, accepting
the card's S(RESET response) clears need.reset, stores the ATR payload and
STAGES the chained IFS request (state.request set, request = IFS,
ifs.dev = 254, need.ifsd_sync = true) — but, the receive window being empty,
it also sets halt, so the process loop exits before sending it.  The wire
sequence of the call is S(RESET request) answered by S(RESET response) only;
`atr` returns the ATR payload, and the pending need.ifsd_sync makes
`process_init` stage the S(IFS request, 254) at the start of the NEXT
process call. -/
theorem c4_reset_flow_amended :
    run4.resVal = some (.ok [0x00]) ∧
    run4.wlog = some [[0x51, 0xC5, 0x00, 0x94]] ∧
    run4.finalSt.need_reset = false ∧
    run4.finalSt.need_ifsd_sync = true ∧
    run4.finalSt.ifs_dev = 254 ∧
    run4.finalSt.halt = true ∧
    (process_init (clear_states run4.finalSt)).state_request = true ∧
    (process_init (clear_states run4.finalSt)).request = 1 := by
  refine ⟨by decide, by decide, by decide, by decide, by decide, by decide,
    by decide, by decide⟩

/-- Claim C9: `clear_states` — executed at the start of the public calls
`reset` (src/proto.rs line 153) and `transmit` (line 182; `install_windows`
here) — resets the six transient flags, the WTX state, the retries, the
pending request code, the send/receive window lengths, the cumulative
receive counter and the scratch length, while leaving the `atr`, `ifs`,
`bwt` and `nad` fields unchanged. -/
theorem c9_clear_states_frame (st : T1State) :
    (clear_states st).halt = false ∧ (clear_states st).state_request = false ∧
    (clear_states st).reqresp = false ∧ (clear_states st).badcrc = false ∧
    (clear_states st).state_timeout = false ∧
    (clear_states st).aborted = false ∧
    (clear_states st).wtx_wtx = 1 ∧ (clear_states st).wtx_rounds = 200 ∧
    (clear_states st).retries = 3 ∧ (clear_states st).request = 0xff ∧
    (clear_states st).send_len = 0 ∧ (clear_states st).recv_len = 0 ∧
    (clear_states st).recv_size = 0 ∧ (clear_states st).recv_size_acc = 0 ∧
    (clear_states st).n = 0 ∧
    (clear_states st).atr_buf = st.atr_buf ∧
    (clear_states st).atr_len = st.atr_len ∧
    (clear_states st).ifs_card = st.ifs_card ∧
    (clear_states st).ifs_dev = st.ifs_dev ∧
    (clear_states st).bwt = st.bwt ∧
    (clear_states st).nad_card = st.nad_card ∧
    (clear_states st).nad_dev = st.nad_dev := by
  exact ⟨rfl, rfl, rfl, rfl, rfl, rfl, rfl, rfl, rfl, rfl, rfl, rfl, rfl,
    rfl, rfl, rfl, rfl, rfl, rfl, rfl, rfl, rfl⟩

/-- A state with an IFS request pending (request = 1, device IFSD 254) whose
scratch buffer holds the S-response E1 with LEN = 0 and payload 254. -/
def stC5a : T1State :=
  { fresh15_51 with
    request := 1, ifs_dev := 254,
    buf := ((fresh15_51.buf.set 1 0xE1).set 2 0).set 3 0xFE }

/-- Like `stC5a` but with LEN = 1 and payload 0x07 (≠ ifs.dev). -/
def stC5b : T1State :=
  { fresh15_51 with
    request := 1, ifs_dev := 254,
    buf := ((fresh15_51.buf.set 1 0xE1).set 2 1).set 3 0x07 }

/-- Claim C5 counterexample: with an IFS request pending, an S-response with
LEN = 0 (so LEN ≠ 1, which by the claim must yield BadMsgIfs) but payload
byte equal to ifs.dev is ACCEPTED (`Ok(true)`), and so is one with LEN = 1
but payload 0x07 ≠ ifs.dev: the code tests
`(buf[2] != 1) && (buf[3] != ifs.dev)` and errors only when both
conditions fail at once. -/
theorem c5_counterexample :
    (parse_response stC5a).2 = .ok true ∧
    (parse_response stC5a).1.need_ifsd_sync = false ∧
    (parse_response stC5b).2 = .ok true := by
  refine ⟨by decide, by decide, by decide⟩

/-- Claim C5 amended: when an IFS S-response is received while an IFS
request is pending, the engine clears need.ifsd_sync, and it returns the
BadMsgIfs error exactly when BOTH the LEN differs from 1 AND the payload
byte differs from the device IFSD; when either LEN = 1 or the payload
equals ifs.dev, the response is accepted. -/
theorem c5_ifs_response_amended (st : T1State)
    (hresp : st.buf.getD 1 0 &&& 0x20 ≠ 0)
    (hcode : st.buf.getD 1 0 &&& 0x1f = 1)
    (hreq : st.request = 1) :
    (parse_response st).1.need_ifsd_sync = false ∧
    ((parse_response st).2 = .error .BadMsgIfs ↔
      st.buf.getD 2 0 ≠ 1 ∧ st.buf.getD 3 0 ≠ st.ifs_dev) := by
  simp only [parse_response, hcode, hreq, if_neg hresp,
    if_neg (fun h => h rfl : ¬ ((1 : Nat) ≠ 1)), if_pos (rfl : (1 : Nat) = 1),
    if_pos (trivial : True)]
  constructor
  · split <;> rfl
  · constructor
    · intro h
      by_cases hC : st.buf.getD 2 0 ≠ 1 ∧ st.buf.getD 3 0 ≠ st.ifs_dev
      · exact hC
      · rw [if_neg hC] at h
        exact absurd h (by simp)
    · intro hC
      rw [if_pos hC]

/-- Witness for C5: the amended theorem applied at the concrete state
`stC5a`, whose hypotheses hold by computation. -/
theorem c5_ifs_response_amended_witness :
    stC5a.buf.getD 1 0 &&& 0x20 ≠ 0 ∧ stC5a.request = 1 ∧
    (parse_response stC5a).1.need_ifsd_sync = false :=
  ⟨by decide, rfl,
    (c5_ifs_response_amended stC5a (by decide) (by decide) rfl).1⟩

/-- Claim C6: in the main loop, every `read_block` failure decrements the
retries and is classified in exactly three ways by the failure-handling
block of `process` (embedded as `read_fail_update`): a checksum mismatch
sets the badcrc flag, and — no S-request or S-response being pending — the
next block staged by `request_init` is the R-block with code 1; a
block-waiting-time timeout sets the timeout flag, and — badcrc being
clear — the next staged block is the R-block with code 0; any other error
forces the retries to 0, upon which the loop terminates returning exactly
that error. -/
theorem c6_read_failure_classification (st : T1State) (e : T1Err)
    (hreq : st.state_request = false) (hrr : st.reqresp = false)
    (hbc : st.badcrc = false) :
    (∀ a b, e = .BadCrc a b →
      read_fail_update st e
          = { st with retries := st.retries - 1, badcrc := true } ∧
      request_init (read_fail_update st e)
          = some (.ok (write_rblock (read_fail_update st e) 1))) ∧
    (∀ t, e = .Timeout t →
      read_fail_update st e
          = { st with retries := st.retries - 1, state_timeout := true } ∧
      request_init (read_fail_update st e)
          = some (.ok (write_rblock (read_fail_update st e) 0))) ∧
    ((∀ a b, e ≠ .BadCrc a b) → (∀ t, e ≠ .Timeout t) →
      read_fail_update st e = { st with retries := 0 } ∧
      ∀ fuel stream w,
        processLoop (fuel + 1) (read_fail_update st e) stream w (.error e)
          = .done (.error e) (read_fail_update st e) stream w) := by
  refine ⟨?_, ?_, ?_⟩
  · rintro a b rfl
    refine ⟨rfl, ?_⟩
    simp [request_init, read_fail_update, hreq, hrr]
  · rintro t rfl
    refine ⟨rfl, ?_⟩
    simp [request_init, read_fail_update, hreq, hrr, hbc]
  · intro h1 h2
    have hupd : read_fail_update st e = { st with retries := 0 } := by
      cases e <;> first
        | rfl
        | exact absurd rfl (h1 _ _)
        | exact absurd rfl (h2 _)
    refine ⟨hupd, ?_⟩
    intro fuel stream w
    rw [hupd]
    simp [processLoop]

/-- Witness for C6: the classification theorem applied at the default
engine state and a concrete checksum error. -/
theorem c6_read_failure_classification_witness :
    t1Default.state_request = false ∧ t1Default.reqresp = false ∧
    t1Default.badcrc = false ∧
    read_fail_update t1Default (.BadCrc 1 2)
      = { t1Default with retries := 2, badcrc := true } := by
  have h := (c6_read_failure_classification t1Default (.BadCrc 1 2)
    rfl rfl rfl).1 1 2 rfl
  exact ⟨rfl, rfl, rfl, h.1⟩

/-- Claim C7 counterexample: a 3-byte C-APDU — shorter than the 4-byte
minimum the claim says the outer layer enforces — is NOT rejected:
`Transmission::transmit` forwards it to the engine, which performs the full
exchange (writing the I-block 51 00 03 80 CA 9F 87) and returns the card's
response, so no error is produced before the protocol engine runs. -/
theorem c7_counterexample :
    (Transmission.transmit tr15_51 [0x80, 0xCA, 0x9F] 258
        [0x15, 0x00, 0x02, 0x90, 0x00, 0x87] 20).resVal
      = some (.ok [0x90, 0x00]) ∧
    (Transmission.transmit tr15_51 [0x80, 0xCA, 0x9F] 258
        [0x15, 0x00, 0x02, 0x90, 0x00, 0x87] 20).wlog
      = some [[0x51, 0x00, 0x03, 0x80, 0xCA, 0x9F, 0x87]] := by
  refine ⟨by decide, by decide⟩

/-- A `Transmission` context that is already initialized with the
test-suite engine configuration. -/
def trInited : Transmission :=
  { tr15_51 with t1 := cfg15_51, inited := true }

/-- Claim C7 amended: the outer layer applies NO minimum-length check —
`Transmission::transmit` on an initialized context with read and write
callbacks delegates every C-APDU, of any length, unmodified to
`T1Proto::transmit`; the engine itself tolerates any non-zero length, and
an empty C-APDU makes the first `request_init` fail with the protocol
error NoRespIBlock before anything is written. -/
theorem c7_no_outer_length_check (tr : Transmission) (capdu : List Nat)
    (cap : Nat) (stream : List Nat) (fuel : Nat)
    (hin : tr.inited = true) (hr : tr.read_set = true)
    (hw : tr.write_set = true) :
    (tr.transmit capdu cap stream fuel =
      match transmit tr.t1 capdu cap stream fuel with
      | .panic => .panic
      | .fuelOut => .fuelOut
      | .done (.error e) st rest w =>
          .done (.error (.T1 e)) { tr with t1 := st } rest w
      | .done (.ok r) st rest w => .done (.ok r) { tr with t1 := st } rest w) ∧
    (∀ st : T1State, st.need_reset = false → st.need_resync = false →
      st.need_ifsd_sync = false →
      transmit st [] cap stream (fuel + 1)
        = .done (.error .NoRespIBlock) (install_windows st [] cap) stream []) := by
  constructor
  · simp [Transmission.transmit, Transmission.tryInit, hin, hr, hw]
  · intro st h1 h2 h3
    simp [transmit, process, process_init, processLoop, request_init,
      install_windows, clear_states, send_window_size, recv_window_size,
      h1, h2, h3]

/-- Witness for C7: the amended theorem applied at the initialized context
and the configured engine, whose hypotheses hold by computation. -/
theorem c7_no_outer_length_check_witness :
    trInited.inited = true ∧ cfg15_51.need_reset = false ∧
    transmit cfg15_51 [] 258 [] 3
      = .done (.error .NoRespIBlock) (install_windows cfg15_51 [] 258) [] [] :=
  ⟨rfl, rfl,
    (c7_no_outer_length_check trInited [] 258 [] 2 rfl rfl rfl).2
      cfg15_51 rfl rfl rfl⟩

/-- Claim C8: LRC round-trip for every block the codec emits.  Each of the
three constructors (`write_rblock`, `write_request`, and `write_iblock`
whenever it does not panic) finishes with `do_chk`, which appends as EDC
the XOR of the preceding `LEN + 3` bytes, so re-verifying the emitted
buffer with `chk_is_good` succeeds. -/
theorem c8_lrc_roundtrip (st : T1State) (k mask : Nat)
    (hbuf : st.buf.length = 260) :
    chk_is_good (write_rblock st k) = .ok () ∧
    chk_is_good (write_request st mask) = .ok () ∧
    (∀ st2, write_iblock st = some st2 → chk_is_good st2 = .ok ()) := by
  have hget3 : ∀ (x y z : Nat),
      (((st.buf.set 0 x).set 1 y).set 2 z).getD 2 0 = z := by
    intro x y z
    apply getD_set_self
    simp [List.length_set, hbuf]
  have hget4 : ∀ (x y z w : Nat),
      ((((st.buf.set 0 x).set 1 y).set 2 z).set 3 w).getD 2 0 = z := by
    intro x y z w
    rw [getD_set_ne _ 3 2 _ (by omega)]
    exact hget3 x y z
  refine ⟨?_, ?_, ?_⟩
  · simp only [write_rblock]
    apply chk_is_good_do_chk
    simp only [hget3, List.length_set, hbuf]
    omega
  · simp only [write_request]
    apply chk_is_good_do_chk
    split_ifs <;>
      simp only [hget3, hget4, List.length_set, hbuf] <;> omega
  · intro st2 hsome
    simp only [write_iblock] at hsome
    by_cases hle :
        (if st.send_len > st.ifs_card then st.ifs_card else st.send_len) ≤ 255
    · rw [if_pos hle, Option.map_eq_some'] at hsome
      obtain ⟨buf2, hcopy, hdo⟩ := hsome
      obtain ⟨hr, hstart, hstop, hsrc⟩ := copyFromSlice_eq_some hcopy
      subst hdo
      apply chk_is_good_do_chk
      subst hr
      rw [getD_writeRange_lt _ _ 3 2 (by omega), length_writeRange, hget3,
        List.length_set, List.length_set, List.length_set, hbuf]
      omega
    · rw [if_neg hle] at hsome
      cases hsome

/-- Witness for C8: the round-trip theorem applied at the default engine
state (scratch buffer of length 260). -/
theorem c8_lrc_roundtrip_witness :
    t1Default.buf.length = 260 ∧
    chk_is_good (write_rblock t1Default 0) = .ok () :=
  ⟨by decide, (c8_lrc_roundtrip t1Default 0 0 (by decide)).1⟩

/-- The claim C10 failed reset exchange: a fresh engine receives an S(RESET
response) whose LEN is 33 > 32. -/
def run10 : POut :=
  reset fresh15_51 ([0x15, 0xE5, 0x21] ++ List.replicate 33 0 ++ [0xD1]) 20

/-- A state with a RESET request pending whose scratch buffer holds an
S(RESET response) with LEN = 33. -/
def stC10 : T1State :=
  { fresh15_51 with
    request := 5, buf := (fresh15_51.buf.set 1 0xE5).set 2 33 }

/-- Claim C10: when an S(RESET response) with LEN > 32 arrives while a RESET
request is pending, `parse_response` returns BadMsgRst but has already
cleared need.reset before the length check; a subsequent `atr` call on any
state with need.reset = false performs no reset exchange (nothing written,
stream untouched) and returns the previously stored ATR bytes.  The
concrete run `run10` shows the failed call: the reset call returns
BadMsgRst, leaves need.reset = false and stores no ATR bytes, so the next
`atr` returns the empty slice. -/
theorem c10_need_reset_cleared_before_len_check (st : T1State)
    (hresp : st.buf.getD 1 0 &&& 0x20 ≠ 0)
    (hcode : st.buf.getD 1 0 &&& 0x1f = 5)
    (hreq : st.request = 5)
    (hlen : 32 < st.buf.getD 2 0) :
    (parse_response st).2 = .error .BadMsgRst ∧
    (parse_response st).1.need_reset = false ∧
    (∀ st2 : T1State, st2.need_reset = false → ∀ stream fuel,
      atr st2 stream fuel
        = .done (.ok (st2.atr_buf.take st2.atr_len)) st2 stream []) ∧
    run10.resVal = some (.error .BadMsgRst) ∧
    run10.finalSt.need_reset = false ∧
    run10.finalSt.atr_len = 0 := by
  have hne : ¬ (st.buf.getD 2 0 ≤ 32) := by omega
  refine ⟨?_, ?_, ?_, by decide, by decide, by decide⟩
  · simp only [parse_response, hcode, hreq, if_neg hresp,
      if_neg (fun h => h rfl : ¬ ((5 : Nat) ≠ 5)),
      if_neg (by omega : ¬ ((5 : Nat) = 1)), if_pos (rfl : (5 : Nat) = 5),
      if_pos (trivial : True), if_neg hne]
  · simp only [parse_response, hcode, hreq, if_neg hresp,
      if_neg (fun h => h rfl : ¬ ((5 : Nat) ≠ 5)),
      if_neg (by omega : ¬ ((5 : Nat) = 1)), if_pos (rfl : (5 : Nat) = 5),
      if_pos (trivial : True), if_neg hne]
  · intro st2 h stream fuel
    simp only [atr, h]
    rfl

/-- Witness for C10: the theorem applied at the concrete pending-RESET
state `stC10`, whose hypotheses hold by computation. -/
theorem c10_need_reset_cleared_witness :
    stC10.request = 5 ∧ 32 < stC10.buf.getD 2 0 ∧
    (parse_response stC10).2 = .error .BadMsgRst :=
  ⟨rfl, by decide,
    (c10_need_reset_cleared_before_len_check stC10 (by decide) (by decide)
      rfl (by decide)).1⟩

end Iso7816
